import Mathlib

/-!
Shallow embedding of the Go rules engine in `dlgo/goboard_slow.py` and the
eye heuristic in `dlgo/agent/helpers.py`, with the supporting `dlgo/gotypes.py`
and `dlgo/zobrist.py` modules (absent from the sources) modelled from the spec.
Python dicts, frozensets and exceptions are rendered as functions to `Option`,
`Finset`, and `Except` respectively; a method that a Python object does not have
(the commented-out `GoString.remove_liberty` / `GoString.add_liberty`) surfaces
as an `AttributeError` value at its call site, exactly where CPython would raise.
-/

/-- Modelled from the spec: `dlgo/gotypes.py` is not under src/.  §3: "Point:
(row, col) integer pair; value type, compared by value." -/
structure Point where
  row : Int
  col : Int
deriving DecidableEq, Repr

/-- Modelled from the spec: `dlgo/gotypes.py` is not under src/.  §4.1:
"neighbors(point): the 4 orthogonally adjacent points (no bounds filtering)." -/
def Point.neighbors (p : Point) : List Point :=
  [⟨p.row - 1, p.col⟩, ⟨p.row + 1, p.col⟩, ⟨p.row, p.col - 1⟩, ⟨p.row, p.col + 1⟩]

/-- Modelled from the spec: `dlgo/gotypes.py` is not under src/.  §3: "Player:
binary enum {first, second} with a total `other` mapping."  `goboard_slow.py`
names the members `Player.black` and `Player.white`, black moving first. -/
inductive Player where
  | black
  | white
deriving DecidableEq, Repr

/-- Modelled from the spec (§3): the total `other` mapping of the binary enum. -/
def Player.other : Player → Player
  | .black => .white
  | .white => .black

/-- A Python exception escaping a method of the engine.  `attributeError s`
records the missing attribute name `s`. -/
inductive PyErr where
  | assertionError
  | attributeError (missing : String)
deriving DecidableEq, Repr

/-- An injection of an integer into `Nat`, used only to build the modelled
Zobrist key table. -/
def intCode (i : Int) : Nat :=
  if i < 0 then 2 * i.natAbs + 1 else 2 * i.natAbs

/-- Modelled from the spec: `dlgo/zobrist.py` is not under src/.  §4.5: "A fixed
table assigns an independent pseudorandom wide integer key to every
(point, color) pair".  The claims depend only on the keys being nonzero (so that
XOR-ing one in changes the hash); this model uses a fixed injective nonzero
encoding in place of the pseudorandom table (§9: only internal self-consistency
within one run is required). -/
def zobrist.HASH_CODE (p : Point) (c : Player) : Nat :=
  3 * Nat.pair (intCode p.row) (intCode p.col) + (if c = Player.black then 1 else 2)

/-- Modelled from the spec: `dlgo/zobrist.py` is not under src/.  §4.5: "plus
one constant key for the empty board". -/
def zobrist.EMPTY_BOARD : Nat := 0

/-- `Move` in `goboard_slow.py`: the constructor asserts that exactly one of
point / is_pass / is_resign is active, and the three classmethods `play`,
`pass_turn` and `resign` produce exactly the three legal shapes, so the type is
a tagged variant (spec §3). -/
inductive Move where
  | play (point : Point)
  | pass_turn
  | resign
deriving DecidableEq, Repr

/-- `Move.is_play`: set iff the move carries a point. -/
def Move.is_play : Move → Bool
  | .play _ => true
  | _ => false

/-- `Move.is_pass`. -/
def Move.is_pass : Move → Bool
  | .pass_turn => true
  | _ => false

/-- `Move.is_resign`. -/
def Move.is_resign : Move → Bool
  | .resign => true
  | _ => false

/-- `Move.point`: the point of a play, `None` otherwise. -/
def Move.point : Move → Option Point
  | .play p => some p
  | _ => none

/-- `GoString` in `goboard_slow.py`: color, frozenset of stones, frozenset of
liberties.  Python `frozenset`s compare by value, as `Finset` does; `__eq__`
compares color, stones and liberties, which is structure equality here. -/
structure GoString where
  color : Player
  stones : Finset Point
  liberties : Finset Point
deriving DecidableEq

/-- `GoString.without_liberty` (defined in the source but never called). -/
def GoString.without_liberty (s : GoString) (point : Point) : GoString :=
  ⟨s.color, s.stones, s.liberties \ {point}⟩

/-- `GoString.merged_with`: `assert go_string.color == self.color`, then the
merged string has the union of the stones and the union of the liberties minus
the combined stones.  A failed assert is the `AssertionError` branch. -/
def GoString.merged_with (s go_string : GoString) : Except PyErr GoString :=
  if go_string.color = s.color then
    .ok ⟨s.color, s.stones ∪ go_string.stones,
         (s.liberties ∪ go_string.liberties) \ (s.stones ∪ go_string.stones)⟩
  else
    .error .assertionError

/-- `GoString.num_liberties` (a property): the size of the liberty set. -/
def GoString.num_liberties (s : GoString) : Nat := s.liberties.card

/-- `Board` in `goboard_slow.py`.  `_grid` is a dict read exclusively through
`_grid.get`, which returns `None` both for an absent key and for a key stored
with value `None` (as `_remove_string` stores); a total function
`Point → Option GoString` is therefore an observation-faithful model.  `_hash`
is set from `zobrist.EMPTY_BOARD` in `__init__` and — in this source — never
written again. -/
structure Board where
  num_rows : Int
  num_cols : Int
  grid : Point → Option GoString
  _hash : Nat

/-- `Board.__init__(num_rows, num_cols)`: empty grid, hash seeded with
`zobrist.EMPTY_BOARD`. -/
def Board.init (num_rows num_cols : Int) : Board :=
  ⟨num_rows, num_cols, fun _ => none, zobrist.EMPTY_BOARD⟩

/-- `Board.is_on_grid`: `1 <= row <= num_rows and 1 <= col <= num_cols`. -/
def Board.is_on_grid (b : Board) (p : Point) : Bool :=
  decide (1 ≤ p.row) && decide (p.row ≤ b.num_rows) &&
  decide (1 ≤ p.col) && decide (p.col ≤ b.num_cols)

/-- `Board.get`: the color of the string at `point`, `None` if unoccupied. -/
def Board.get (b : Board) (point : Point) : Option Player :=
  (b.grid point).map GoString.color

/-- `Board.get_go_string`: the whole string at `point`, `None` if unoccupied. -/
def Board.get_go_string (b : Board) (point : Point) : Option GoString :=
  b.grid point

/-- One iteration of the neighbor-classification loop at the top of
`Board.place_stone`: the accumulator is
(adjacent_same_color, adjacent_opposite_color, liberties), each built by
appending, with the two string lists deduplicated by membership (Python `in`,
which uses `GoString.__eq__`, i.e. value equality). -/
def classifyStep (b : Board) (player : Player)
    (acc : List GoString × List GoString × List Point) (neighbor : Point) :
    List GoString × List GoString × List Point :=
  if b.is_on_grid neighbor = false then acc
  else
    match b.grid neighbor with
    | none => (acc.1, acc.2.1, acc.2.2 ++ [neighbor])
    | some neighbor_string =>
      if neighbor_string.color = player then
        (if acc.1.any (fun t => decide (t = neighbor_string)) then acc.1
         else acc.1 ++ [neighbor_string], acc.2.1, acc.2.2)
      else
        (acc.1,
         if acc.2.1.any (fun t => decide (t = neighbor_string)) then acc.2.1
         else acc.2.1 ++ [neighbor_string], acc.2.2)

/-- The classification loop of `Board.place_stone` over the four neighbors. -/
def Board.classifyNeighbors (b : Board) (player : Player) (point : Point) :
    List GoString × List GoString × List Point :=
  point.neighbors.foldl (classifyStep b player) ([], [], [])

/-- `Board.place_stone(player, point)`.

Faithful to the source in `goboard_slow.py`:
* the two leading `assert`s (point on grid, point unoccupied) are the
  `AssertionError` branches;
* the neighbor loop classifies empty neighbors as liberties and deduplicates
  adjacent strings by value;
* the singleton string for the new stone is successively `merged_with` every
  adjacent same-color string (left to right, through the `Except` monad since
  `merged_with` contains an assert), and the merged string is written at every
  one of its stones — the loop `for new_string_point in new_string.stones`
  writes the same value at distinct keys, so its result is the pointwise update
  recorded here;
* the loop `for other_color_string in adjacent_opposite_color:
  other_color_string.remove_liberty(point)` calls a method that is commented
  out in `GoString`, so its first iteration raises
  `AttributeError("remove_liberty")`; the loop body runs iff
  `adjacent_opposite_color` is nonempty.  The exception propagates, so the
  partially updated clone is never observed by any caller, matching the
  `.error` result.  `_hash` is never updated. -/
def Board.place_stone (b : Board) (player : Player) (point : Point) :
    Except PyErr Board :=
  if b.is_on_grid point = false then .error .assertionError
  else if (b.grid point).isSome then .error .assertionError
  else
    match List.foldlM (fun s t => GoString.merged_with s t)
        (GoString.mk player {point} (b.classifyNeighbors player point).2.2.toFinset)
        (b.classifyNeighbors player point).1 with
    | .error e => .error e
    | .ok new_string =>
      match (b.classifyNeighbors player point).2.1 with
      | [] => .ok ⟨b.num_rows, b.num_cols,
                   fun q => if q ∈ new_string.stones then some new_string
                            else b.grid q,
                   b._hash⟩
      | _ :: _ => .error (.attributeError "remove_liberty")

/-- `Board._remove_string(string)` (dead code: its only call site in
`place_stone` is behind the `remove_liberty` AttributeError).

The Python loop visits each stone of `string`, looks up each of its four
neighbors, skips empty cells and cells holding `string` itself (cells of
already-processed stones are already `None` and are likewise skipped), and on
any other string calls `neighbor_string.add_liberty(point)` — a method that is
commented out in `GoString`, raising `AttributeError("add_liberty")`.  For a
board satisfying the Board invariant (every cell of `string.stones` holds
`string`), whether such a neighbor exists does not depend on the frozenset
iteration order, and when none exists the loop clears every stone of the
string; the embedding case-splits on that condition directly. -/
def Board._remove_string (b : Board) (string : GoString) : Except PyErr Board :=
  if ∃ p ∈ string.stones, ∃ n ∈ p.neighbors,
      n ∉ string.stones ∧ b.grid n ≠ none ∧ b.grid n ≠ some string then
    .error (.attributeError "add_liberty")
  else
    .ok ⟨b.num_rows, b.num_cols,
         fun q => if q ∈ string.stones then none else b.grid q, b._hash⟩

/-- `GameState` in `goboard_slow.py`: board, next player, previous state
(`None` or a `GameState` — the two constructors `root` and `step` are
respectively those two cases of the optional backward link, encoded as
separate constructors so that walks along the chain are structurally
recursive), and optional last move.  `copy.deepcopy` of a board is modelled
as the board value itself (boards compare and behave by content everywhere
except in `does_move_violate_ko`, where Python falls back to object
identity — see there). -/
inductive GameState where
  | root (board : Board) (next_player : Player) (last_move : Option Move)
  | step (board : Board) (next_player : Player) (previous : GameState)
         (last_move : Option Move)

/-- Field accessor for `GameState.board`. -/
def GameState.board : GameState → Board
  | .root b _ _ => b
  | .step b _ _ _ => b

/-- Field accessor for `GameState.next_player`. -/
def GameState.next_player : GameState → Player
  | .root _ p _ => p
  | .step _ p _ _ => p

/-- Field accessor for `GameState.previous_state`: `None` for a `root`, the
linked state for a `step`. -/
def GameState.previous_state : GameState → Option GameState
  | .root _ _ _ => none
  | .step _ _ pv _ => some pv

/-- Field accessor for `GameState.last_move`. -/
def GameState.last_move : GameState → Option Move
  | .root _ _ lm => lm
  | .step _ _ _ lm => lm

/-- `GameState.situation` (a property): the tuple
`(self.next_player, self.board)`. -/
def GameState.situation (s : GameState) : Player × Board :=
  (s.next_player, s.board)

/-- `GameState.apply_move(move)`: for a play, deep-copy the board and place the
stone on the copy (an exception from `place_stone` propagates); otherwise reuse
the board.  The new node records the mover's opponent as next player, links
back to `self`, and stores the move. -/
def GameState.apply_move (s : GameState) (move : Move) : Except PyErr GameState :=
  match move with
  | .play pt =>
    match s.board.place_stone s.next_player pt with
    | .error e => .error e
    | .ok next_board => .ok (.step next_board s.next_player.other s (some move))
  | _ => .ok (.step s.board s.next_player.other s (some move))

/-- `GameState.new_game(board_size)` with an integer size: a square empty board,
black to move, no previous state, no last move. -/
def GameState.new_game (board_size : Int) : GameState :=
  .root (Board.init board_size board_size) .black none

/-- `GameState.is_over()`.  Faithful to the source: `None` last move → `False`;
a resignation → `True`; otherwise Python reads
`self.previous_state.last_move`, which raises `AttributeError` when
`previous_state` is `None` (impossible for states produced by `new_game` /
`apply_move`); else `True` iff the last two moves are both passes. -/
def GameState.is_over (s : GameState) : Except PyErr Bool :=
  match s.last_move with
  | none => .ok false
  | some last =>
    if last.is_resign then .ok true
    else
      match s.previous_state with
      | none => .error (.attributeError "last_move")
      | some prev =>
        match prev.last_move with
        | none => .ok false
        | some second_last => .ok (last.is_pass && second_last.is_pass)

/-- `GameState.is_move_self_capture(player, move)`: `False` for a non-play;
for a play, place the stone on a deep copy (exceptions propagate) and test
whether the string now at the played point has zero liberties.  In the source
`next_board.get_go_string(move.point)` can in principle be `None`, upon which
`.num_liberties` would raise; the branch is kept (it is unreachable because
`place_stone` writes the new string at the played point). -/
def GameState.is_move_self_capture (s : GameState) (player : Player) (move : Move) :
    Except PyErr Bool :=
  match move with
  | .play pt =>
    match s.board.place_stone player pt with
    | .error e => .error e
    | .ok next_board =>
      match next_board.get_go_string pt with
      | none => .error (.attributeError "num_liberties")
      | some new_string => .ok (decide (new_string.num_liberties = 0))
  | _ => .ok false

/-- The ancestor walk of `GameState.does_move_violate_ko`.

Python compares `past_state.situation == next_situation`: tuple equality
compares componentwise with `==`; `Player` members compare by value, but
`Board` defines no `__eq__`, so two boards compare equal only when they are the
same object.  `next_situation` holds a board freshly created by
`copy.deepcopy` inside the current call, a distinct object from every board
stored in the history chain, so the board component of the comparison is
`False` at every ancestor.  The embedding records that identity comparison as
the literal conjunct `false` alongside the value comparison of the player
component. -/
def koWalkState : GameState → Player → Bool
  | .root _ np _, next_player => decide (np = next_player) && false
  | .step _ np prev _, next_player =>
    (decide (np = next_player) && false) || koWalkState prev next_player

/-- The entry to the ancestor walk: `past_state = self.previous_state` may be
`None`, in which case the `while` loop body never runs. -/
def koWalk : Option GameState → Player → Bool
  | none, _ => false
  | some g, next_player => koWalkState g next_player

/-- `GameState.does_move_violate_ko(player, move)`: `False` for a non-play; for
a play, place the stone on a deep copy (exceptions propagate), form
`next_situation = (player.other, next_board)` and walk the ancestor chain
comparing situations — see `koWalk` for how Python evaluates that
comparison. -/
def GameState.does_move_violate_ko (s : GameState) (player : Player) (move : Move) :
    Except PyErr Bool :=
  match move with
  | .play pt =>
    match s.board.place_stone player pt with
    | .error e => .error e
    | .ok _next_board => .ok (koWalk s.previous_state player.other)
  | _ => .ok false

/-- `GameState.is_valid_move(move)`: `False` when the game is over (an
exception from `is_over` propagates); `True` for a pass or a resignation;
for a play, the Python conjunction
`get(move.point) is None and not self_capture and not ko` with left-to-right
short-circuiting, every exception propagating. -/
def GameState.is_valid_move (s : GameState) (move : Move) : Except PyErr Bool :=
  match s.is_over with
  | .error e => .error e
  | .ok true => .ok false
  | .ok false =>
    match move with
    | .pass_turn => .ok true
    | .resign => .ok true
    | .play pt =>
      match s.board.get pt with
      | some _ => .ok false
      | none =>
        match s.is_move_self_capture s.next_player (.play pt) with
        | .error e => .error e
        | .ok true => .ok false
        | .ok false =>
          match s.does_move_violate_ko s.next_player (.play pt) with
          | .error e => .error e
          | .ok ko => .ok (!ko)

/-- The corner list built inside `is_point_an_eye` in
`dlgo/agent/helpers.py`: the four diagonal neighbors of the point. -/
def eyeCorners (point : Point) : List Point :=
  [⟨point.row - 1, point.col - 1⟩, ⟨point.row - 1, point.col + 1⟩,
   ⟨point.row + 1, point.col - 1⟩, ⟨point.row + 1, point.col + 1⟩]

/-- `is_point_an_eye(board, point, color)` from `dlgo/agent/helpers.py`.

The point must be empty; every on-grid orthogonal neighbor must hold `color`
(the loop returns `False` at the first on-grid neighbor whose color differs,
which is the same result as the `any` test here); `friendly_corners` counts
on-grid corners holding `color` and `off_board_corners` counts off-grid
corners; on the edge (some corner off-grid) all remaining corners must be
friendly, in the middle at least 3 of 4. -/
def is_point_an_eye (board : Board) (point : Point) (color : Player) : Bool :=
  if (board.get point).isSome then false
  else if point.neighbors.any (fun n =>
      board.is_on_grid n && !(decide (board.get n = some color))) then false
  else
    let friendly_corners := ((eyeCorners point).filter (fun c =>
      board.is_on_grid c && decide (board.get c = some color))).length
    let off_board_corners := ((eyeCorners point).filter (fun c =>
      !board.is_on_grid c)).length
    if 0 < off_board_corners then
      decide (off_board_corners + friendly_corners = 4)
    else
      decide (3 ≤ friendly_corners)

/-- The on-grid points of a board, row by row. -/
def Board.allPoints (b : Board) : List Point :=
  (List.range b.num_rows.toNat).flatMap (fun r =>
    (List.range b.num_cols.toNat).map (fun c =>
      ⟨(r : Int) + 1, (c : Int) + 1⟩))

/-- Spec-side definition (for comparison with the code): the "full
board-content equality" of spec §4.4 — same dimensions and the same stored
string at every on-grid point.  The code itself compares boards with Python
`==`, which for `Board` is object identity. -/
def Board.contentEq (a b : Board) : Bool :=
  decide (a.num_rows = b.num_rows) && decide (a.num_cols = b.num_cols) &&
  a.allPoints.all (fun p => decide (a.grid p = b.grid p))

/-- Spec-side definition: the last recorded move exists and is a
resignation. -/
def lastIsResign (s : GameState) : Prop :=
  ∃ m, s.last_move = some m ∧ m.is_resign = true

/-- Spec-side definition: at least two moves are recorded and the last two are
both passes. -/
def lastTwoPasses (s : GameState) : Prop :=
  ∃ p m1 m2, s.previous_state = some p ∧ s.last_move = some m1 ∧
    p.last_move = some m2 ∧ m1.is_pass = true ∧ m2.is_pass = true

/-- A single-stone string with no recorded liberties, used to hand-build board
fixtures for claims quantified over every board (only `color` is ever read
through `Board.get`). -/
def stoneAt (c : Player) (p : Point) : GoString :=
  ⟨c, {p}, ∅⟩

/-- Fixture: the single black stone placed at (1,1) on a 2×2 board, with its
two liberties. -/
def koStone : GoString :=
  ⟨.black, {⟨1, 1⟩}, {⟨2, 1⟩, ⟨1, 2⟩}⟩

/-- Fixture: a 2×2 board holding exactly `koStone` at (1,1). -/
def koBoard : Board :=
  ⟨2, 2, fun p => if p = ⟨1, 1⟩ then some koStone else none, zobrist.EMPTY_BOARD⟩

/-- Fixture: an ancestor state whose situation is (white to move, `koBoard`). -/
def koAncestor : GameState :=
  .root koBoard .white (some (.play ⟨1, 1⟩))

/-- Fixture: a current state on an empty 2×2 board, black to move, whose
ancestor chain contains `koAncestor`; black playing (1,1) re-creates the
ancestor situation exactly. -/
def koCurrent : GameState :=
  .step (Board.init 2 2) .black koAncestor (some .pass_turn)

/-- Fixture: the game state reached from `new_game(2)` by a resignation. -/
def resignedState : GameState :=
  .step (Board.init 2 2) .white (GameState.new_game 2) (some .resign)

/-- Fixture: a 2×2 board with white single-stone strings at (1,2) and (2,1) —
every on-grid neighbor of (1,1) is enemy-occupied for black. -/
def surroundedBoard : Board :=
  ⟨2, 2,
   fun p => if p = ⟨1, 2⟩ then some (GoString.mk .white {⟨1, 2⟩} {⟨2, 2⟩, ⟨1, 1⟩})
            else if p = ⟨2, 1⟩ then some (GoString.mk .white {⟨2, 1⟩} {⟨1, 1⟩, ⟨2, 2⟩})
            else none,
   zobrist.EMPTY_BOARD⟩

/-- Fixture: game state on `surroundedBoard`, black to move. -/
def surroundedState : GameState :=
  .root surroundedBoard .black none

/-- Fixture: a 3×3 board whose eight points around (2,2) all hold black
stones. -/
def eyeBoardFull : Board :=
  ⟨3, 3,
   fun p => if p = ⟨1, 2⟩ ∨ p = ⟨2, 1⟩ ∨ p = ⟨2, 3⟩ ∨ p = ⟨3, 2⟩ ∨
               p = ⟨1, 1⟩ ∨ p = ⟨1, 3⟩ ∨ p = ⟨3, 1⟩ ∨ p = ⟨3, 3⟩
            then some (stoneAt .black p) else none,
   zobrist.EMPTY_BOARD⟩

/-- Fixture: a 3×3 board with the four orthogonal neighbors of (2,2) black but
only two of the four diagonal corners black (the other two white). -/
def eyeBoardTwoCorners : Board :=
  ⟨3, 3,
   fun p => if p = ⟨1, 2⟩ ∨ p = ⟨2, 1⟩ ∨ p = ⟨2, 3⟩ ∨ p = ⟨3, 2⟩ ∨
               p = ⟨1, 1⟩ ∨ p = ⟨1, 3⟩
            then some (stoneAt .black p)
            else if p = ⟨3, 1⟩ ∨ p = ⟨3, 3⟩ then some (stoneAt .white p)
            else none,
   zobrist.EMPTY_BOARD⟩

/-- C1.  Situational superko detection is broken in the code: `koCurrent`
carries an ancestor (`koAncestor`) whose situation — white to move, a lone
black stone at (1,1) on a 2×2 board — is exactly re-created when black plays
(1,1), as witnessed by `Board.contentEq` on the simulated result; yet
`does_move_violate_ko` returns `False`, because `Board` defines no `__eq__`
and the situation comparison tests object identity against a fresh deep copy.
The claim requires it to return `True` under full board-content equality. -/
theorem C1_superko_not_detected :
    koCurrent.does_move_violate_ko .black (.play ⟨1, 1⟩) = .ok false ∧
    ((Board.init 2 2).place_stone .black ⟨1, 1⟩).toOption.map
        (fun nb => koBoard.contentEq nb &&
          decide (koAncestor.next_player = Player.other .black)) = some true ∧
    koCurrent.previous_state = some koAncestor ∧
    koCurrent.board.contentEq (Board.init 2 2) = true :=
  ⟨rfl, by decide, rfl, by decide⟩

/-- C2.  Capture resolution crashes instead of capturing: on a 1×2 board,
black at (1,1) leaves that stone a single liberty at (1,2); white playing
(1,2) must remove that last liberty and clear the black stone, but
`place_stone` invokes `GoString.remove_liberty`, a method that is commented
out, so the move raises `AttributeError` instead of resolving the capture. -/
theorem C2_capture_raises_attribute_error :
    ((Board.init 1 2).place_stone .black ⟨1, 1⟩).toOption.map
        (fun b => (b.get ⟨1, 1⟩,
                   (b.get_go_string ⟨1, 1⟩).map GoString.num_liberties)) =
      some (some .black, some 1) ∧
    ((Board.init 1 2).place_stone .black ⟨1, 1⟩).bind
        (fun b => b.place_stone .white ⟨1, 2⟩) =
      .error (.attributeError "remove_liberty") :=
  ⟨by decide, rfl⟩

/-- C3 counterexample.  After a resignation the game is over, and
`is_valid_move` then returns `False` for a pass and for a resignation — the
code starts with `if self.is_over(): return False` — contradicting the claim
that passes and resignations are legal unconditionally, including in states
where the game is already over. -/
theorem C3_pass_resign_rejected_after_over :
    (GameState.new_game 2).apply_move .resign = .ok resignedState ∧
    resignedState.is_over = .ok true ∧
    resignedState.is_valid_move .pass_turn = .ok false ∧
    resignedState.is_valid_move .resign = .ok false :=
  ⟨rfl, rfl, rfl, rfl⟩

/-- C3 amended.  `is_valid_move` returns `True` for a pass and for a
resignation whenever the game is not yet over; once `is_over()` is `True`, it
returns `False` for every move, passes and resignations included. -/
theorem C3_pass_resign_valid_until_over (s : GameState) (m : Move) :
    (s.is_over = .ok false →
      s.is_valid_move .pass_turn = .ok true ∧ s.is_valid_move .resign = .ok true) ∧
    (s.is_over = .ok true → s.is_valid_move m = .ok false) := by
  constructor
  · intro h
    unfold GameState.is_valid_move
    rw [h]
    exact ⟨rfl, rfl⟩
  · intro h
    unfold GameState.is_valid_move
    rw [h]

/-- C3 amended, witness: in the fresh game passes and resignations are valid;
in the resigned game a pass is invalid. -/
theorem C3_pass_resign_valid_until_over_witness :
    ((GameState.new_game 2).is_valid_move .pass_turn = .ok true ∧
     (GameState.new_game 2).is_valid_move .resign = .ok true) ∧
    resignedState.is_valid_move .pass_turn = .ok false :=
  ⟨(C3_pass_resign_valid_until_over (GameState.new_game 2) .pass_turn).1 rfl,
   (C3_pass_resign_valid_until_over resignedState .pass_turn).2 rfl⟩

/-- C4.  The incremental hash is never maintained: `place_stone` does not touch
`_hash`, so after black plays (1,1) on an empty 2×2 board the hash still equals
`zobrist.EMPTY_BOARD`, whereas XOR-ing in the (point, color) key — what the
claim says happens — would have produced a different value, the key being
nonzero. -/
theorem C4_hash_never_updated :
    ((Board.init 2 2).place_stone .black ⟨1, 1⟩).toOption.map Board._hash =
      some zobrist.EMPTY_BOARD ∧
    Nat.xor zobrist.EMPTY_BOARD (zobrist.HASH_CODE ⟨1, 1⟩ .black) ≠
      zobrist.EMPTY_BOARD :=
  ⟨by decide, by decide⟩

/-- C5.  The self-capture check crashes instead of rejecting: on
`surroundedBoard` every on-grid neighbor of (1,1) holds a white stone, so black
playing (1,1) is the claim's flagship suicide; but the simulation inside
`is_move_self_capture` reaches the commented-out `GoString.remove_liberty` and
raises `AttributeError`, and `is_valid_move` propagates the same exception
instead of returning `False`. -/
theorem C5_self_capture_check_raises :
    (∀ n ∈ (Point.mk 1 1).neighbors,
      surroundedBoard.is_on_grid n = true → surroundedBoard.get n = some .white) ∧
    surroundedBoard.get ⟨1, 1⟩ = none ∧
    surroundedState.is_move_self_capture .black (.play ⟨1, 1⟩) =
      .error (.attributeError "remove_liberty") ∧
    surroundedState.is_valid_move (.play ⟨1, 1⟩) =
      .error (.attributeError "remove_liberty") :=
  ⟨by decide, rfl, rfl, rfl⟩

/-- C6.  Game-over detection: for every game state satisfying the reachability
invariant (a state with no previous state records no last move — true of
`new_game` and everything `apply_move` produces), `is_over()` returns a boolean
that is `True` exactly when the last move is a resignation or at least two
moves are recorded and the last two are both passes; and concretely, along
[Play(1,1), Pass, Pass] from a new game `is_over()` is `False` after moves 1
and 2 and `True` after move 3, while along [Play(1,1), Resign] it is `True`
immediately after move 2. -/
theorem C6_game_over_detection (s : GameState)
    (hinv : s.previous_state = none → s.last_move = none) :
    (∃ b, s.is_over = .ok b ∧ (b = true ↔ (lastIsResign s ∨ lastTwoPasses s))) ∧
    (((GameState.new_game 2).apply_move (.play ⟨1, 1⟩)).bind
        GameState.is_over = .ok false) ∧
    ((((GameState.new_game 2).apply_move (.play ⟨1, 1⟩)).bind
        (fun t => t.apply_move .pass_turn)).bind GameState.is_over = .ok false) ∧
    (((((GameState.new_game 2).apply_move (.play ⟨1, 1⟩)).bind
        (fun t => t.apply_move .pass_turn)).bind
        (fun t => t.apply_move .pass_turn)).bind GameState.is_over = .ok true) ∧
    ((((GameState.new_game 2).apply_move (.play ⟨1, 1⟩)).bind
        (fun t => t.apply_move .resign)).bind GameState.is_over = .ok true) := by
  refine ⟨?_, rfl, rfl, rfl, rfl⟩
  rcases s with ⟨bd, np, lm⟩ | ⟨bd, np, prev, lm⟩
  · have h : lm = none := hinv rfl
    subst h
    exact ⟨false, rfl, by simp [lastIsResign, lastTwoPasses, GameState.last_move]⟩
  · clear hinv
    rcases lm with _ | m
    · exact ⟨false, rfl, by simp [lastIsResign, lastTwoPasses, GameState.last_move]⟩
    rcases prev with ⟨bd2, np2, lm2⟩ | ⟨bd2, np2, prev2, lm2⟩ <;>
      rcases lm2 with _ | m2 <;>
      rcases m with pt | _ | _ <;>
      (try rcases m2 with pt2 | _ | _) <;>
      refine ⟨_, rfl, ?_⟩ <;>
      simp [lastIsResign, lastTwoPasses, GameState.last_move,
            GameState.previous_state, Move.is_pass, Move.is_resign]

/-- C6 witness: the general clause instantiated at the two-pass end state of
[Play(1,1), Pass, Pass] — built by hand, it satisfies the invariant — together
with the concrete sequences. -/
theorem C6_game_over_detection_witness :
    (∃ b, (GameState.new_game 2).is_over = .ok b ∧
      (b = true ↔ (lastIsResign (GameState.new_game 2) ∨
                   lastTwoPasses (GameState.new_game 2)))) ∧
    (((GameState.new_game 2).apply_move (.play ⟨1, 1⟩)).bind
        GameState.is_over = .ok false) ∧
    ((((GameState.new_game 2).apply_move (.play ⟨1, 1⟩)).bind
        (fun t => t.apply_move .pass_turn)).bind GameState.is_over = .ok false) ∧
    (((((GameState.new_game 2).apply_move (.play ⟨1, 1⟩)).bind
        (fun t => t.apply_move .pass_turn)).bind
        (fun t => t.apply_move .pass_turn)).bind GameState.is_over = .ok true) ∧
    ((((GameState.new_game 2).apply_move (.play ⟨1, 1⟩)).bind
        (fun t => t.apply_move .resign)).bind GameState.is_over = .ok true) :=
  C6_game_over_detection (GameState.new_game 2) (fun _ => rfl)

/-- C7.  Group merging: for same-color groups, `merged_with` succeeds and
returns the group with that color, the union of the stone sets, and the union
of the liberty sets minus the combined stones; it is commutative, and
associative across three same-color groups (composed through the exception
monad, so either association order yields the same group — the order in which
`place_stone` folds its merge candidates is immaterial); on groups of
different colors it is a contract error (`AssertionError`). -/
theorem C7_merged_with_algebra (g1 g2 g3 : GoString) :
    (g1.color = g2.color →
      g1.merged_with g2 =
        .ok ⟨g1.color, g1.stones ∪ g2.stones,
             (g1.liberties ∪ g2.liberties) \ (g1.stones ∪ g2.stones)⟩ ∧
      g1.merged_with g2 = g2.merged_with g1) ∧
    (g1.color = g2.color → g2.color = g3.color →
      (g1.merged_with g2).bind (fun g => g.merged_with g3) =
      (g2.merged_with g3).bind (fun g => g1.merged_with g)) ∧
    (g1.color ≠ g2.color → g1.merged_with g2 = .error .assertionError) := by
  obtain ⟨c1, s1, l1⟩ := g1
  obtain ⟨c2, s2, l2⟩ := g2
  obtain ⟨c3, s3, l3⟩ := g3
  refine ⟨?_, ?_, ?_⟩
  · rintro rfl
    refine ⟨by simp [GoString.merged_with], ?_⟩
    simp [GoString.merged_with]
    rw [Finset.union_comm s1 s2, Finset.union_comm l1 l2]
    exact ⟨rfl, rfl⟩
  · rintro rfl rfl
    simp [GoString.merged_with, Except.bind]
    ext x
    simp only [Finset.mem_sdiff, Finset.mem_union]
    tauto
  · intro hne
    simp only [GoString.color] at hne
    simp [GoString.merged_with]
    exact fun h => hne h.symm

/-- C7 witness: the algebra evaluated on concrete groups — a merge of two
single-stone black groups, its commuted form, the two association orders over
three black groups, and the assertion failure on a black/white merge. -/
theorem C7_merged_with_algebra_witness :
    (GoString.mk .black {⟨1, 1⟩} {⟨1, 2⟩}).merged_with
        (GoString.mk .black {⟨2, 1⟩} {⟨1, 1⟩, ⟨2, 2⟩}) =
      .ok ⟨.black, {⟨1, 1⟩, ⟨2, 1⟩}, {⟨1, 2⟩, ⟨2, 2⟩}⟩ ∧
    ((GoString.mk .black {⟨1, 1⟩} {⟨1, 2⟩}).merged_with
        (GoString.mk .black {⟨2, 1⟩} {⟨1, 1⟩, ⟨2, 2⟩}) =
      (GoString.mk .black {⟨2, 1⟩} {⟨1, 1⟩, ⟨2, 2⟩}).merged_with
        (GoString.mk .black {⟨1, 1⟩} {⟨1, 2⟩})) ∧
    (((GoString.mk .black {⟨1, 1⟩} {⟨1, 2⟩}).merged_with
        (GoString.mk .black {⟨2, 1⟩} {⟨1, 1⟩, ⟨2, 2⟩})).bind
      (fun g => g.merged_with (GoString.mk .black {⟨3, 1⟩} {⟨2, 1⟩})) =
     ((GoString.mk .black {⟨2, 1⟩} {⟨1, 1⟩, ⟨2, 2⟩}).merged_with
        (GoString.mk .black {⟨3, 1⟩} {⟨2, 1⟩})).bind
      (fun g => (GoString.mk .black {⟨1, 1⟩} {⟨1, 2⟩}).merged_with g)) ∧
    (GoString.mk .black {⟨1, 1⟩} {⟨1, 2⟩}).merged_with
        (GoString.mk .white {⟨2, 2⟩} {⟨2, 1⟩}) = .error .assertionError := by
  have h1 := (C7_merged_with_algebra (GoString.mk .black {⟨1, 1⟩} {⟨1, 2⟩})
    (GoString.mk .black {⟨2, 1⟩} {⟨1, 1⟩, ⟨2, 2⟩})
    (GoString.mk .black {⟨3, 1⟩} {⟨2, 1⟩}))
  have h2 := (C7_merged_with_algebra (GoString.mk .black {⟨1, 1⟩} {⟨1, 2⟩})
    (GoString.mk .white {⟨2, 2⟩} {⟨2, 1⟩})
    (GoString.mk .white {⟨2, 2⟩} {⟨2, 1⟩}))
  refine ⟨?_, (h1.1 rfl).2, h1.2.1 rfl rfl, h2.2.2 (by decide)⟩
  rw [(h1.1 rfl).1]
  exact congrArg Except.ok (by decide)

/-- One classification step only ever adds a string of the player's color to
the same-color list. -/
lemma classifyStep_same_mem (b : Board) (player : Player)
    (acc : List GoString × List GoString × List Point) (n : Point) (g : GoString)
    (hg : g ∈ (classifyStep b player acc n).1) : g ∈ acc.1 ∨ g.color = player := by
  unfold classifyStep at hg
  split at hg
  · exact Or.inl hg
  · split at hg
    · exact Or.inl hg
    · rename_i ns _
      split at hg
      · rename_i hcol
        split at hg
        · exact Or.inl hg
        · rcases List.mem_append.1 hg with h | h
          · exact Or.inl h
          · rcases List.mem_singleton.1 h with rfl
            exact Or.inr hcol
      · exact Or.inl hg

/-- Every string collected on the same-color list of the classification loop
has the player's color. -/
lemma classify_foldl_same_color (b : Board) (player : Player) :
    ∀ (l : List Point) (acc : List GoString × List GoString × List Point),
      (∀ g ∈ acc.1, g.color = player) →
      ∀ g ∈ (l.foldl (classifyStep b player) acc).1, g.color = player := by
  intro l
  induction l with
  | nil => exact fun acc h g hg => h g hg
  | cons n rest ih =>
    intro acc h g hg
    refine ih _ ?_ g hg
    intro g' hg'
    rcases classifyStep_same_mem b player acc n g' hg' with h' | h'
    · exact h g' h'
    · exact h'

/-- Folding `merged_with` over same-color strings from a string of that color
never trips the color assert and preserves the color. -/
lemma foldlM_merged_with_ok (player : Player) :
    ∀ (l : List GoString) (s : GoString), s.color = player →
      (∀ g ∈ l, g.color = player) →
      ∃ r, List.foldlM (fun a t => GoString.merged_with a t) s l = .ok r ∧
        r.color = player := by
  intro l
  induction l with
  | nil => exact fun s hs _ => ⟨s, rfl, hs⟩
  | cons t rest ih =>
    intro s hs hl
    have ht : t.color = s.color := by
      rw [hs, hl t (List.mem_cons_self t rest)]
    obtain ⟨r, hr, hrc⟩ := ih ⟨s.color, s.stones ∪ t.stones,
        (s.liberties ∪ t.liberties) \ (s.stones ∪ t.stones)⟩ hs
      (fun g hg => hl g (List.mem_cons_of_mem t hg))
    refine ⟨r, ?_, hrc⟩
    rw [List.foldlM_cons]
    have hm : GoString.merged_with s t =
        .ok ⟨s.color, s.stones ∪ t.stones,
             (s.liberties ∪ t.liberties) \ (s.stones ∪ t.stones)⟩ := by
      unfold GoString.merged_with
      rw [if_pos ht]
    rw [hm]
    exact hr

/-- C8.  Contract behavior of the board primitives: for every board whose
occupied points are on-grid (true of every board the code produces),
`place_stone` signals an `AssertionError` exactly when its precondition is
violated — the point is off-grid or already occupied; when the precondition
holds, the assertion branches are unreachable (the result is a success or, in
this source, the distinct `remove_liberty` AttributeError — never an
assertion failure).  The read-only lookups `get` and `get_go_string` are total
functions in the embedding, mirroring that they raise nothing, and both return
`None` on an unoccupied or off-grid point. -/
theorem C8_contract_preconditions (b : Board) (player : Player) (pt q : Point)
    (hwf : ∀ x, b.is_on_grid x = false → b.grid x = none) :
    (b.place_stone player pt = .error .assertionError ↔
      ¬(b.is_on_grid pt = true ∧ b.grid pt = none)) ∧
    ((b.is_on_grid q = false ∨ b.grid q = none) →
      (b.get q = none ∧ b.get_go_string q = none)) := by
  constructor
  · constructor
    · intro herr hpre
      obtain ⟨hon, hemp⟩ := hpre
      unfold Board.place_stone at herr
      rw [hon] at herr
      rw [hemp] at herr
      simp only [Bool.true_eq_false, if_false, Option.isSome_none] at herr
      obtain ⟨r, hr, _⟩ := foldlM_merged_with_ok player
        (b.classifyNeighbors player pt).1
        (GoString.mk player {pt} (b.classifyNeighbors player pt).2.2.toFinset)
        rfl
        (classify_foldl_same_color b player pt.neighbors ([], [], [])
          (fun g hg => absurd hg (List.not_mem_nil g)))
      rw [hr] at herr
      rcases hcl : (b.classifyNeighbors player pt).2.1 with _ | ⟨a, t⟩ <;>
        rw [hcl] at herr <;> simp at herr
    · intro hviol
      by_cases hon : b.is_on_grid pt = true
      · have hne : ¬ b.grid pt = none := fun h => hviol ⟨hon, h⟩
        obtain ⟨g, hg⟩ := Option.ne_none_iff_exists'.1 hne
        unfold Board.place_stone
        rw [hon, hg]
        simp
      · have hoff : b.is_on_grid pt = false := by
          rcases Bool.eq_false_or_eq_true (b.is_on_grid pt) with h | h
          · exact absurd h hon
          · exact h
        unfold Board.place_stone
        rw [hoff]
        simp
  · intro hq
    have hnone : b.grid q = none := by
      rcases hq with h | h
      · exact hwf q h
      · exact h
    exact ⟨by simp [Board.get, hnone], by simp [Board.get_go_string, hnone]⟩

/-- C8 witness: the contract statement instantiated on the empty 2×2 board —
placing at the on-grid empty point (1,1) is no assertion failure, placing at
the off-grid point (3,3) is, and lookups at (3,3) return `None`. -/
theorem C8_contract_preconditions_witness :
    (((Board.init 2 2).place_stone .black ⟨3, 3⟩ = .error .assertionError ↔
       ¬((Board.init 2 2).is_on_grid ⟨3, 3⟩ = true ∧
         (Board.init 2 2).grid ⟨3, 3⟩ = none)) ∧
     (((Board.init 2 2).is_on_grid ⟨3, 3⟩ = false ∨
       (Board.init 2 2).grid ⟨3, 3⟩ = none) →
      ((Board.init 2 2).get ⟨3, 3⟩ = none ∧
       (Board.init 2 2).get_go_string ⟨3, 3⟩ = none))) ∧
    ((Board.init 2 2).place_stone .black ⟨1, 1⟩ = .error .assertionError ↔
      ¬((Board.init 2 2).is_on_grid ⟨1, 1⟩ = true ∧
        (Board.init 2 2).grid ⟨1, 1⟩ = none)) :=
  ⟨C8_contract_preconditions (Board.init 2 2) .black ⟨3, 3⟩ ⟨3, 3⟩
     (fun _ _ => rfl),
   (C8_contract_preconditions (Board.init 2 2) .black ⟨1, 1⟩ ⟨1, 1⟩
     (fun _ _ => rfl)).1⟩

/-- C9.  The eye heuristic on interior points: for every board, color and
empty point whose four orthogonal neighbors are on-grid and hold that color
and whose four diagonal corners are on-grid, `is_point_an_eye` returns `True`
when all four corners hold the color, and `False` when exactly two of the four
do. -/
theorem C9_eye_heuristic (b : Board) (pt : Point) (c : Player)
    (hempty : b.get pt = none)
    (hn : ∀ n ∈ pt.neighbors, b.is_on_grid n = true ∧ b.get n = some c)
    (hc : ∀ x ∈ eyeCorners pt, b.is_on_grid x = true) :
    ((∀ x ∈ eyeCorners pt, b.get x = some c) →
      is_point_an_eye b pt c = true) ∧
    ((eyeCorners pt).countP (fun x => decide (b.get x = some c)) = 2 →
      is_point_an_eye b pt c = false) := by
  have hany : pt.neighbors.any (fun n =>
      b.is_on_grid n && !(decide (b.get n = some c))) = false := by
    rw [List.any_eq_false]
    intro n hnmem
    rw [(hn n hnmem).1, (hn n hnmem).2]
    simp
  have hoff : ((eyeCorners pt).filter (fun x => !b.is_on_grid x)).length = 0 := by
    rw [List.length_eq_zero]
    rw [List.filter_eq_nil_iff]
    intro x hx
    rw [hc x hx]
    simp
  have hfriendly : ((eyeCorners pt).filter (fun x =>
      b.is_on_grid x && decide (b.get x = some c))).length =
      (eyeCorners pt).countP (fun x => decide (b.get x = some c)) := by
    rw [List.countP_eq_length_filter]
    congr 1
    apply List.filter_congr
    intro x hx
    rw [hc x hx]
    simp
  constructor
  · intro hall
    have hcount : (eyeCorners pt).countP (fun x => decide (b.get x = some c)) =
        (eyeCorners pt).length := by
      apply List.countP_eq_length.2
      intro x hx
      simp [hall x hx]
    unfold is_point_an_eye
    rw [hempty]
    simp only [Option.isSome_none, Bool.false_eq_true, if_false]
    rw [hany]
    simp only [Bool.false_eq_true, if_false]
    rw [hoff, hfriendly, hcount]
    simp [eyeCorners]
  · intro htwo
    unfold is_point_an_eye
    rw [hempty]
    simp only [Option.isSome_none, Bool.false_eq_true, if_false]
    rw [hany]
    simp only [Bool.false_eq_true, if_false]
    rw [hoff, hfriendly, htwo]
    simp

/-- C9 witness: on the 3×3 fixtures, the full black ring around (2,2) is an
eye for black and the two-corner ring is not. -/
theorem C9_eye_heuristic_witness :
    is_point_an_eye eyeBoardFull ⟨2, 2⟩ .black = true ∧
    is_point_an_eye eyeBoardTwoCorners ⟨2, 2⟩ .black = false :=
  ⟨(C9_eye_heuristic eyeBoardFull ⟨2, 2⟩ .black rfl (by decide) (by decide)).1
     (by decide),
   (C9_eye_heuristic eyeBoardTwoCorners ⟨2, 2⟩ .black rfl (by decide)
     (by decide)).2 (by decide)⟩

/-- C10.  Passes and resignations are never flagged as illegal placements: for
every game state and player, `is_move_self_capture` and `does_move_violate_ko`
return `False` for a pass and for a resignation — the `if not move.is_play`
guard fires before any board is cloned or inspected, as shown by the result
being exception-free for arbitrary states (including ones on which a placement
simulation would raise). -/
theorem C10_pass_resign_never_flagged (s : GameState) (p : Player) :
    s.is_move_self_capture p .pass_turn = .ok false ∧
    s.is_move_self_capture p .resign = .ok false ∧
    s.does_move_violate_ko p .pass_turn = .ok false ∧
    s.does_move_violate_ko p .resign = .ok false :=
  ⟨rfl, rfl, rfl, rfl⟩
